import Mathlib

/-!
Verification of the conversation session manager (aiStore) of the
paynless-framework repository.

The store implementation itself (packages/store/src/aiStore.ts) is not part of
the provided sources; only its test suites, planning checklists and the design
spec are.  The definitions below therefore model the missing store from the
spec, keeping every concrete detail that the test suites pin down (the
`temp-user-`/`temp-chat-` provisional ids, the 50-character title prefix, the
`Echo from Dummy: ` response of the dummy provider, the `pendingAction`
descriptor shape, and the behaviour when the navigation collaborator is
absent or durable storage fails).
-/

/-- Role of a turn in a conversation thread (`user` | `assistant` | `system`). -/
inductive Role where
  | user
  | assistant
  | system
deriving DecidableEq, Repr

/-- A chat message (a Turn): id (provisional or durable), owning conversation
id, role and content.  Fields of the source `ChatMessage` type that no claim
observes (timestamps, token usage, author id, active-in-thread flag) are
omitted. -/
structure ChatMessage where
  id : String
  chat_id : String
  role : Role
  content : String
deriving DecidableEq, Repr

/-- A Conversation summary as cached per context: durable (or provisional) id,
owning organization id (`none` = personal) and title. -/
structure Chat where
  id : String
  organization_id : Option String
  title : String
deriving DecidableEq, Repr

/-- Look up the first value bound to key `k` in an association list. -/
def getEntry (k : String) : List (String × α) → Option α
  | [] => none
  | (k', v) :: rest => if k' = k then some v else getEntry k rest

/-- Replace the first binding of key `k` (or append one) in an association
list. -/
def setEntry (k : String) (v : α) : List (String × α) → List (String × α)
  | [] => [(k, v)]
  | (k', v') :: rest => if k' = k then (k, v) :: rest else (k', v') :: setEntry k v rest

/-- Remove every binding of key `k` from an association list. -/
def eraseEntry (k : String) (m : List (String × α)) : List (String × α) :=
  m.filter (fun e => e.1 ≠ k)

/-- Upsert a conversation summary by id: an existing summary with the same id
is replaced in place, a new one is appended (spec section 4.1). -/
def upsertChat (c : Chat) : List Chat → List Chat
  | [] => [c]
  | c' :: rest => if c'.id = c.id then c :: rest else c' :: upsertChat c rest

/-- Modelled from the spec: the observable state of the missing aiStore
(`AiState` in packages/types).  `chatsPersonal`/`chatsOrgs` are the per-context
conversation caches (`chatsByContext`), where `none`/an absent org key means
the context has never been fetched; `historyLoadingPersonal`/
`historyLoadingOrgs` are the per-context loading flags
(`isLoadingHistoryByContext`). -/
structure AiState where
  messagesByChatId : List (String × List ChatMessage)
  chatsPersonal : Option (List Chat)
  chatsOrgs : List (String × List Chat)
  currentChatId : Option String
  isLoadingAiResponse : Bool
  newChatContext : Option String
  rewindTargetMessageId : Option String
  aiError : Option String
  historyLoadingPersonal : Bool
  historyLoadingOrgs : List (String × Bool)
deriving DecidableEq, Repr

/-- The conversation-summary cache entry of a context (`none` = personal). -/
def getCache (st : AiState) (ctx : Option String) : Option (List Chat) :=
  match ctx with
  | none => st.chatsPersonal
  | some o => getEntry o st.chatsOrgs

/-- Store a context's conversation-summary cache entry. -/
def setCache (st : AiState) (ctx : Option String) (l : List Chat) : AiState :=
  match ctx with
  | none => { st with chatsPersonal := some l }
  | some o => { st with chatsOrgs := setEntry o l st.chatsOrgs }

/-- The history-loading flag of a context (`none` = personal). -/
def loadingFor (st : AiState) (ctx : Option String) : Bool :=
  match ctx with
  | none => st.historyLoadingPersonal
  | some o => (getEntry o st.historyLoadingOrgs).getD false

/-- Set the history-loading flag of a context. -/
def setLoading (st : AiState) (ctx : Option String) (b : Bool) : AiState :=
  match ctx with
  | none => { st with historyLoadingPersonal := b }
  | some o => { st with historyLoadingOrgs := setEntry o b st.historyLoadingOrgs }

/-- Number of turns held under a conversation id (an absent entry holds 0). -/
def turnCount (st : AiState) (cid : String) : Nat :=
  ((getEntry cid st.messagesByChatId).getD []).length

/-- A send request as passed to `sendMessage`: message content, provider id,
prompt id and (optionally) an explicit target conversation id. -/
structure SendRequest where
  message : String
  providerId : String
  promptId : Option String
  chatId : Option String
deriving DecidableEq, Repr

/-- Modelled from the spec: the `pendingAction` descriptor persisted to
durable storage on an `AuthRequired` failure, exactly as the test suite
observes it (`{ endpoint: 'chat', method: 'POST', body: { ...request, chatId,
organizationId }, returnPath: 'chat' }`). -/
structure PendingAction where
  endpoint : String
  method : String
  body_message : String
  body_providerId : String
  body_promptId : Option String
  body_chatId : Option String
  body_organizationId : Option String
  returnPath : String
deriving DecidableEq, Repr

/-- Outcome of the network collaborator's `sendTurn` call: a returned
assistant turn (tagged with the conversation id it was applied to), a
validation/provider failure carrying a message, a transport failure carrying a
message, or an authentication-required failure. -/
inductive ApiOutcome where
  | success (assistant : ChatMessage)
  | apiError (msg : String)
  | networkError (msg : String)
  | authRequired (msg : String)
deriving DecidableEq, Repr

/-- Ambient collaborators and freshly minted identifiers of one send attempt:
the provisional user-turn id (`temp-user-...`), the provisional staging
conversation key (`temp-chat-...`), the suffix of a dummy echo id, whether the
navigation collaborator is available, and whether durable storage accepts
writes. -/
structure SendEnv where
  tempUserId : String
  stagingKey : String
  dummyEchoId : String
  navigateAvailable : Bool
  storageOk : Bool
deriving DecidableEq, Repr

/-- Result of one send attempt: the store state afterwards, whether the
network collaborator was invoked, the durable-storage content afterwards, and
whether navigation to the credential-renewal flow was triggered. -/
structure SendResult where
  state : AiState
  apiCalled : Bool
  storage : Option PendingAction
  navigated : Bool
deriving DecidableEq, Repr

/-- The provider id of the local dummy echo provider
(`DUMMY_PROVIDER_ID` from aiStore.dummy). -/
def DUMMY_PROVIDER_ID : String := "dummy-echo-v1"

/-- Target resolution (spec section 4.3 step 1): an explicit conversation id
on the request wins, otherwise the active conversation id; `none` implies a
new conversation. -/
def effectiveChatId (st : AiState) (req : SendRequest) : Option String :=
  match req.chatId with
  | some c => some c
  | none => st.currentChatId

/-- Modelled from the spec: the `pendingAction` descriptor built from the
original request on the `AuthRequired` path (spec section 4.3 step 6);
`organizationId` is the context selected for new conversations. -/
def mkPendingAction (st : AiState) (req : SendRequest) : PendingAction :=
  { endpoint := "chat"
    method := "POST"
    body_message := req.message
    body_providerId := req.providerId
    body_promptId := req.promptId
    body_chatId := effectiveChatId st req
    body_organizationId := st.newChatContext
    returnPath := "chat" }

/-- Modelled from the spec: the missing `sendMessage` action of aiStore
(spec section 4.3).  One send attempt, given the resolution of the network
call: in-flight rejection, optimistic append under the target or a provisional
staging key, the dummy-provider echo short-circuit, success reconciliation
(new-conversation move, rewind truncation, summary upsert with a 50-character
title prefix), non-auth rollback, and the `AuthRequired` hand-off to recovery
(descriptor persistence, rollback, navigation when available, the error field
set only when navigation is unavailable or persistence failed). -/
def sendMessage (st : AiState) (storage0 : Option PendingAction)
    (req : SendRequest) (outcome : ApiOutcome) (env : SendEnv) : SendResult :=
  if st.isLoadingAiResponse then
    { state := st, apiCalled := false, storage := storage0, navigated := false }
  else
    let eff := effectiveChatId st req
    let key := eff.getD env.stagingKey
    let isNewChat := eff.isNone
    let userMsg : ChatMessage :=
      { id := env.tempUserId, chat_id := key, role := Role.user, content := req.message }
    let origList := (getEntry key st.messagesByChatId).getD []
    if req.providerId = DUMMY_PROVIDER_ID then
      let echo : ChatMessage :=
        { id := "dummy-echo-" ++ env.dummyEchoId, chat_id := key, role := Role.assistant,
          content := "Echo from Dummy: " ++ req.message }
      let map2 := setEntry key (origList ++ [userMsg, echo]) st.messagesByChatId
      let base : AiState :=
        { st with messagesByChatId := map2, currentChatId := some key,
                  isLoadingAiResponse := false, aiError := none }
      let st2 :=
        if isNewChat then
          let summary : Chat :=
            { id := key, organization_id := st.newChatContext, title := req.message.take 50 }
          setCache { base with newChatContext := none } st.newChatContext
            (upsertChat summary ((getCache st st.newChatContext).getD []))
        else base
      { state := st2, apiCalled := false, storage := storage0, navigated := false }
    else
      match outcome with
      | ApiOutcome.success assistant =>
        if isNewChat then
          let durable := assistant.chat_id
          let moved := (origList ++ [userMsg]).map (fun t => { t with chat_id := durable })
          let map2 := setEntry durable (moved ++ [assistant])
            (eraseEntry key (setEntry key (origList ++ [userMsg]) st.messagesByChatId))
          let summary : Chat :=
            { id := durable, organization_id := st.newChatContext, title := req.message.take 50 }
          let st2 := setCache
            { st with messagesByChatId := map2, currentChatId := some durable,
                      isLoadingAiResponse := false, newChatContext := none,
                      rewindTargetMessageId := none, aiError := none }
            st.newChatContext
            (upsertChat summary ((getCache st st.newChatContext).getD []))
          { state := st2, apiCalled := true, storage := storage0, navigated := false }
        else
          match st.rewindTargetMessageId with
          | some target =>
            let base := origList.takeWhile (fun t => t.id ≠ target)
            let map2 := setEntry key (base ++ [userMsg, assistant]) st.messagesByChatId
            { state :=
                { st with messagesByChatId := map2, currentChatId := some key,
                          isLoadingAiResponse := false, rewindTargetMessageId := none,
                          aiError := none },
              apiCalled := true, storage := storage0, navigated := false }
          | none =>
            let map2 := setEntry key (origList ++ [userMsg, assistant]) st.messagesByChatId
            { state :=
                { st with messagesByChatId := map2, currentChatId := some key,
                          isLoadingAiResponse := false, aiError := none },
              apiCalled := true, storage := storage0, navigated := false }
      | ApiOutcome.apiError msg =>
        let map2 := setEntry key
          ((origList ++ [userMsg]).filter (fun t => t.id ≠ env.tempUserId)) st.messagesByChatId
        { state :=
            { st with messagesByChatId := map2, isLoadingAiResponse := false,
                      aiError := some msg },
          apiCalled := true, storage := storage0, navigated := false }
      | ApiOutcome.networkError msg =>
        let map2 := setEntry key
          ((origList ++ [userMsg]).filter (fun t => t.id ≠ env.tempUserId)) st.messagesByChatId
        { state :=
            { st with messagesByChatId := map2, isLoadingAiResponse := false,
                      aiError := some msg },
          apiCalled := true, storage := storage0, navigated := false }
      | ApiOutcome.authRequired authMsg =>
        let map2 := setEntry key
          ((origList ++ [userMsg]).filter (fun t => t.id ≠ env.tempUserId)) st.messagesByChatId
        if env.storageOk then
          { state :=
              { st with messagesByChatId := map2, isLoadingAiResponse := false,
                        aiError := if env.navigateAvailable then none else some authMsg },
            apiCalled := true, storage := some (mkPendingAction st req),
            navigated := env.navigateAvailable }
        else
          { state :=
              { st with messagesByChatId := map2, isLoadingAiResponse := false,
                        aiError := some authMsg },
            apiCalled := true, storage := storage0, navigated := false }

/-- Result of one `listConversations` call: the state afterwards, whether a
fetch was issued, and the cached list returned immediately (if any). -/
structure ListConvResult where
  state : AiState
  fetched : Bool
  cached : Option (List Chat)
deriving DecidableEq, Repr

/-- Modelled from the spec: the missing `listConversations`/`loadChatHistory`
contract (spec section 4.1): return the cached list immediately if present;
otherwise, unless the context is already marked loading, mark it loading and
issue a fetch. -/
def listConversations (st : AiState) (ctx : Option String) : ListConvResult :=
  match getCache st ctx with
  | some l => { state := st, fetched := false, cached := some l }
  | none =>
    if loadingFor st ctx then
      { state := st, fetched := false, cached := none }
    else
      { state := setLoading st ctx true, fetched := true, cached := none }

/-- Modelled from the spec: fetch completion for `listConversations` — store
the result and clear the loading flag (spec section 4.1). -/
def completeListConversations (st : AiState) (ctx : Option String)
    (chats : List Chat) : AiState :=
  setLoading (setCache st ctx chats) ctx false

/-- Modelled from the spec: the missing `checkAndReplayPendingChatAction` /
`replayPendingSendIfAny` action (spec section 4.4): read the single persisted
descriptor; if absent, no-op; if present, remove it from durable storage
first, then re-issue the same request through the send path. -/
def replayPendingSendIfAny (st : AiState) (storage : Option PendingAction)
    (outcome : ApiOutcome) (env : SendEnv) : SendResult :=
  match storage with
  | none => { state := st, apiCalled := false, storage := none, navigated := false }
  | some pa =>
    let req : SendRequest :=
      { message := pa.body_message, providerId := pa.body_providerId,
        promptId := pa.body_promptId, chatId := pa.body_chatId }
    sendMessage st none req outcome env

theorem getEntry_setEntry_self (k : String) (v : α) (m : List (String × α)) :
    getEntry k (setEntry k v m) = some v := by
  induction m with
  | nil => simp [getEntry, setEntry]
  | cons e rest ih =>
    by_cases h : e.1 = k
    · simp [setEntry, getEntry, h]
    · simp [setEntry, getEntry, h, ih]

theorem getEntry_setEntry_ne (k k' : String) (v : α) (m : List (String × α))
    (h : k' ≠ k) : getEntry k' (setEntry k v m) = getEntry k' m := by
  induction m with
  | nil => simp [getEntry, setEntry, Ne.symm h]
  | cons e rest ih =>
    by_cases he : e.1 = k
    · by_cases he' : e.1 = k'
      · exact absurd (he'.symm.trans he) h
      · simp [setEntry, getEntry, he, he', Ne.symm h]
    · simp [setEntry, getEntry, he, ih]

theorem setEntry_setEntry_self (k : String) (v w : α) (m : List (String × α)) :
    setEntry k v (setEntry k w m) = setEntry k v m := by
  induction m with
  | nil => simp [setEntry]
  | cons e rest ih =>
    by_cases h : e.1 = k
    · simp [setEntry, h]
    · simp [setEntry, h, ih]

theorem eraseEntry_setEntry_self (k : String) (v : α) (m : List (String × α)) :
    eraseEntry k (setEntry k v m) = eraseEntry k m := by
  induction m with
  | nil => simp [setEntry, eraseEntry]
  | cons e rest ih =>
    simp only [eraseEntry, ne_eq, decide_not] at ih
    by_cases h : e.1 = k
    · simp [setEntry, eraseEntry, List.filter_cons, h, ih]
    · simp [setEntry, eraseEntry, List.filter_cons, h, ih]

theorem getEntry_eraseEntry_self (k : String) (m : List (String × α)) :
    getEntry k (eraseEntry k m) = none := by
  induction m with
  | nil => simp [eraseEntry, getEntry]
  | cons e rest ih =>
    by_cases h : e.1 = k
    · simpa [eraseEntry, List.filter, h] using ih
    · simpa [eraseEntry, List.filter, h, getEntry] using ih

theorem filter_out_temp (l : List ChatMessage) (u : ChatMessage) (tempId : String)
    (hu : u.id = tempId) (hFresh : ∀ t ∈ l, t.id ≠ tempId) :
    List.filter (fun t => t.id ≠ tempId) (l ++ [u]) = l := by
  rw [List.filter_append]
  have h1 : List.filter (fun t => t.id ≠ tempId) l = l := by
    rw [List.filter_eq_self]
    intro a ha
    simp [hFresh a ha]
  have h2 : List.filter (fun t => t.id ≠ tempId) [u] = ([] : List ChatMessage) := by
    simp [List.filter, hu]
  rw [h1, h2]
  simp

theorem takeWhile_prefix_of_marker (pre : List ChatMessage) (tTurn : ChatMessage)
    (post : List ChatMessage) (target : String)
    (hT : tTurn.id = target) (hPre : ∀ t ∈ pre, t.id ≠ target) :
    (pre ++ tTurn :: post).takeWhile (fun t => t.id ≠ target) = pre := by
  induction pre with
  | nil => simp [List.takeWhile_cons, hT]
  | cons a rest ih =>
    have ha : a.id ≠ target := hPre a (by simp)
    have ih2 := ih (fun t ht => hPre t (by simp [ht]))
    simp only [ne_eq, decide_not] at ih2 ⊢
    simp [List.takeWhile_cons, ha, ih2]

@[simp] theorem setCache_currentChatId (st : AiState) (ctx : Option String) (l : List Chat) :
    (setCache st ctx l).currentChatId = st.currentChatId := by
  cases ctx <;> simp [setCache]

@[simp] theorem setCache_messagesByChatId (st : AiState) (ctx : Option String) (l : List Chat) :
    (setCache st ctx l).messagesByChatId = st.messagesByChatId := by
  cases ctx <;> simp [setCache]

@[simp] theorem setCache_rewindTargetMessageId (st : AiState) (ctx : Option String) (l : List Chat) :
    (setCache st ctx l).rewindTargetMessageId = st.rewindTargetMessageId := by
  cases ctx <;> simp [setCache]

@[simp] theorem setCache_aiError (st : AiState) (ctx : Option String) (l : List Chat) :
    (setCache st ctx l).aiError = st.aiError := by
  cases ctx <;> simp [setCache]

@[simp] theorem setCache_isLoadingAiResponse (st : AiState) (ctx : Option String) (l : List Chat) :
    (setCache st ctx l).isLoadingAiResponse = st.isLoadingAiResponse := by
  cases ctx <;> simp [setCache]

theorem getCache_setCache_self (st : AiState) (ctx : Option String) (l : List Chat) :
    getCache (setCache st ctx l) ctx = some l := by
  cases ctx <;> simp [getCache, setCache, getEntry_setEntry_self]

theorem getCache_setLoading (st : AiState) (ctx ctx2 : Option String) (b : Bool) :
    getCache (setLoading st ctx b) ctx2 = getCache st ctx2 := by
  cases ctx <;> cases ctx2 <;> simp [getCache, setLoading]

theorem loadingFor_setLoading_self (st : AiState) (ctx : Option String) (b : Bool) :
    loadingFor (setLoading st ctx b) ctx = b := by
  cases ctx <;> simp [loadingFor, setLoading, getEntry_setEntry_self]

/-- A sample store state with an empty (but fetched) personal cache, used by
the concrete witnesses below. -/
def sampleState : AiState :=
  { messagesByChatId := []
    chatsPersonal := some []
    chatsOrgs := []
    currentChatId := none
    isLoadingAiResponse := false
    newChatContext := none
    rewindTargetMessageId := none
    aiError := none
    historyLoadingPersonal := false
    historyLoadingOrgs := [] }

/-- A sample send environment used by the concrete witnesses below. -/
def sampleEnv : SendEnv :=
  { tempUserId := "temp-user-1"
    stagingKey := "temp-chat-1"
    dummyEchoId := "1"
    navigateAvailable := true
    storageOk := true }

/-- A sample send request used by the concrete witnesses below. -/
def sampleReq : SendRequest :=
  { message := "Hello", providerId := "p1", promptId := some "s1", chatId := none }

/-- C7: a send attempted while the in-flight-send flag is set is rejected at
the call boundary: the store state is unchanged, the network collaborator is
not invoked, durable storage is untouched and no navigation is triggered, so
no second send ever starts (and in particular no interleaving can occur). -/
theorem sendMessage_rejected_while_in_flight
    (st : AiState) (storage0 : Option PendingAction) (req : SendRequest)
    (outcome : ApiOutcome) (env : SendEnv)
    (hBusy : st.isLoadingAiResponse = true) :
    sendMessage st storage0 req outcome env =
      { state := st, apiCalled := false, storage := storage0, navigated := false } := by
  simp [sendMessage, hBusy]

/-- Witness for C7 at a concrete in-flight state. -/
theorem sendMessage_rejected_while_in_flight_witness :
    ({ sampleState with isLoadingAiResponse := true } : AiState).isLoadingAiResponse = true ∧
    sendMessage { sampleState with isLoadingAiResponse := true } none sampleReq
        (ApiOutcome.apiError "boom") sampleEnv =
      { state := { sampleState with isLoadingAiResponse := true }, apiCalled := false,
        storage := none, navigated := false } :=
  ⟨rfl, sendMessage_rejected_while_in_flight _ _ _ _ _ rfl⟩

/-- C4: every send attempt failing with a non-auth error (validation/provider
or network) is fully rolled back: every conversation's turn count and the
active conversation id equal their values before the attempt (the optimistic
user turn is removed and a newly staged conversation holds no residual turn),
the rewind marker is unchanged, an error value is recorded for display, and
durable storage is untouched. -/
theorem sendMessage_nonauth_failure_full_rollback
    (st : AiState) (storage0 : Option PendingAction) (req : SendRequest)
    (env : SendEnv) (outcome : ApiOutcome) (msg : String)
    (hIdle : st.isLoadingAiResponse = false)
    (hNotDummy : req.providerId ≠ DUMMY_PROVIDER_ID)
    (hOut : outcome = ApiOutcome.apiError msg ∨ outcome = ApiOutcome.networkError msg)
    (hFresh : ∀ t ∈ ((getEntry ((effectiveChatId st req).getD env.stagingKey)
        st.messagesByChatId).getD []), t.id ≠ env.tempUserId) :
    (∀ cid : String,
        turnCount (sendMessage st storage0 req outcome env).state cid = turnCount st cid) ∧
    (sendMessage st storage0 req outcome env).state.currentChatId = st.currentChatId ∧
    (sendMessage st storage0 req outcome env).state.rewindTargetMessageId
        = st.rewindTargetMessageId ∧
    (sendMessage st storage0 req outcome env).state.aiError = some msg ∧
    (sendMessage st storage0 req outcome env).storage = storage0 := by
  have hfilter : List.filter (fun t => t.id ≠ env.tempUserId)
      (((getEntry ((effectiveChatId st req).getD env.stagingKey)
          st.messagesByChatId).getD [])
        ++ [{ id := env.tempUserId,
              chat_id := (effectiveChatId st req).getD env.stagingKey,
              role := Role.user, content := req.message }]) =
      ((getEntry ((effectiveChatId st req).getD env.stagingKey)
          st.messagesByChatId).getD []) :=
    filter_out_temp _ _ _ rfl hFresh
  simp only [ne_eq, decide_not] at hfilter
  have hres : sendMessage st storage0 req outcome env =
      { state :=
          { st with
            messagesByChatId :=
              setEntry ((effectiveChatId st req).getD env.stagingKey)
                ((getEntry ((effectiveChatId st req).getD env.stagingKey)
                    st.messagesByChatId).getD [])
                st.messagesByChatId,
            isLoadingAiResponse := false, aiError := some msg },
        apiCalled := true, storage := storage0, navigated := false } := by
    rcases hOut with h | h <;> subst h <;>
      simp [sendMessage, hIdle, hNotDummy, hfilter]
  refine ⟨?_, ?_, ?_, ?_, ?_⟩
  · intro cid
    rw [hres]
    by_cases hc : cid = (effectiveChatId st req).getD env.stagingKey
    · subst hc
      simp [turnCount, getEntry_setEntry_self]
    · simp [turnCount, getEntry_setEntry_ne _ _ _ _ hc]
  · rw [hres]
  · rw [hres]
  · rw [hres]
  · rw [hres]

/-- Witness for C4 at a concrete idle state and a concrete provider error. -/
theorem sendMessage_nonauth_failure_full_rollback_witness :
    sampleState.isLoadingAiResponse = false ∧
    sampleReq.providerId ≠ DUMMY_PROVIDER_ID ∧
    ((∀ cid : String,
        turnCount (sendMessage sampleState none sampleReq
          (ApiOutcome.apiError "rate limited") sampleEnv).state cid
          = turnCount sampleState cid) ∧
     (sendMessage sampleState none sampleReq
        (ApiOutcome.apiError "rate limited") sampleEnv).state.currentChatId
        = sampleState.currentChatId ∧
     (sendMessage sampleState none sampleReq
        (ApiOutcome.apiError "rate limited") sampleEnv).state.rewindTargetMessageId
        = sampleState.rewindTargetMessageId ∧
     (sendMessage sampleState none sampleReq
        (ApiOutcome.apiError "rate limited") sampleEnv).state.aiError
        = some "rate limited" ∧
     (sendMessage sampleState none sampleReq
        (ApiOutcome.apiError "rate limited") sampleEnv).storage = none) :=
  ⟨rfl, by decide,
   sendMessage_nonauth_failure_full_rollback sampleState none sampleReq sampleEnv
     (ApiOutcome.apiError "rate limited") "rate limited" rfl (by decide)
     (Or.inl rfl) (by simp [sampleState, effectiveChatId, sampleReq, getEntry])⟩

/-- C5 counterexample: at the concrete state `sampleState` with the navigation
collaborator unavailable (the situation of the `[ANON] NAVIGATE NULL` test),
an AuthRequired failure persists the descriptor but sets the user-visible
error field to the auth error message — refuting the claim that the error
field is left unset on every AuthRequired failure. -/
theorem sendMessage_auth_required_sets_error_when_navigate_unavailable :
    (sendMessage sampleState none sampleReq (ApiOutcome.authRequired "Auth required")
        { sampleEnv with navigateAvailable := false }).storage
      = some (mkPendingAction sampleState sampleReq) ∧
    (sendMessage sampleState none sampleReq (ApiOutcome.authRequired "Auth required")
        { sampleEnv with navigateAvailable := false }).state.aiError
      = some "Auth required" := by
  constructor <;> rfl

/-- C5 (amended): for every send attempt that fails with AuthRequired while
the navigation collaborator is available and durable storage accepts the
write, exactly one pending-send descriptor built from the original request is
persisted, the optimistic append is rolled back (every conversation's turn
count and the active conversation id are as before the attempt), navigation
to credential renewal is triggered, and the user-visible error field is left
unset.  (When the navigation collaborator is unavailable the error field is
instead set to the auth error message.) -/
theorem sendMessage_auth_required_persists_descriptor_no_error
    (st : AiState) (storage0 : Option PendingAction) (req : SendRequest)
    (env : SendEnv) (authMsg : String)
    (hIdle : st.isLoadingAiResponse = false)
    (hNotDummy : req.providerId ≠ DUMMY_PROVIDER_ID)
    (hNav : env.navigateAvailable = true)
    (hStore : env.storageOk = true)
    (hFresh : ∀ t ∈ ((getEntry ((effectiveChatId st req).getD env.stagingKey)
        st.messagesByChatId).getD []), t.id ≠ env.tempUserId) :
    (sendMessage st storage0 req (ApiOutcome.authRequired authMsg) env).storage
      = some (mkPendingAction st req) ∧
    (∀ cid : String,
        turnCount (sendMessage st storage0 req (ApiOutcome.authRequired authMsg) env).state cid
          = turnCount st cid) ∧
    (sendMessage st storage0 req (ApiOutcome.authRequired authMsg) env).state.currentChatId
      = st.currentChatId ∧
    (sendMessage st storage0 req (ApiOutcome.authRequired authMsg) env).state.aiError = none ∧
    (sendMessage st storage0 req (ApiOutcome.authRequired authMsg) env).navigated = true := by
  have hfilter : List.filter (fun t => t.id ≠ env.tempUserId)
      (((getEntry ((effectiveChatId st req).getD env.stagingKey)
          st.messagesByChatId).getD [])
        ++ [{ id := env.tempUserId,
              chat_id := (effectiveChatId st req).getD env.stagingKey,
              role := Role.user, content := req.message }]) =
      ((getEntry ((effectiveChatId st req).getD env.stagingKey)
          st.messagesByChatId).getD []) :=
    filter_out_temp _ _ _ rfl hFresh
  simp only [ne_eq, decide_not] at hfilter
  have hres : sendMessage st storage0 req (ApiOutcome.authRequired authMsg) env =
      { state :=
          { st with
            messagesByChatId :=
              setEntry ((effectiveChatId st req).getD env.stagingKey)
                ((getEntry ((effectiveChatId st req).getD env.stagingKey)
                    st.messagesByChatId).getD [])
                st.messagesByChatId,
            isLoadingAiResponse := false, aiError := none },
        apiCalled := true, storage := some (mkPendingAction st req),
        navigated := true } := by
    simp [sendMessage, hIdle, hNotDummy, hfilter, hNav, hStore]
  refine ⟨?_, ?_, ?_, ?_, ?_⟩
  · rw [hres]
  · intro cid
    rw [hres]
    by_cases hc : cid = (effectiveChatId st req).getD env.stagingKey
    · subst hc
      simp [turnCount, getEntry_setEntry_self]
    · simp [turnCount, getEntry_setEntry_ne _ _ _ _ hc]
  · rw [hres]
  · rw [hres]
  · rw [hres]

/-- Witness for the amended C5 at a concrete anonymous new-chat send. -/
theorem sendMessage_auth_required_persists_descriptor_no_error_witness :
    sampleState.isLoadingAiResponse = false ∧
    sampleEnv.navigateAvailable = true ∧
    sampleEnv.storageOk = true ∧
    ((sendMessage sampleState none sampleReq (ApiOutcome.authRequired "Auth required")
        sampleEnv).storage = some (mkPendingAction sampleState sampleReq) ∧
     (∀ cid : String,
        turnCount (sendMessage sampleState none sampleReq
          (ApiOutcome.authRequired "Auth required") sampleEnv).state cid
          = turnCount sampleState cid) ∧
     (sendMessage sampleState none sampleReq (ApiOutcome.authRequired "Auth required")
        sampleEnv).state.currentChatId = sampleState.currentChatId ∧
     (sendMessage sampleState none sampleReq (ApiOutcome.authRequired "Auth required")
        sampleEnv).state.aiError = none ∧
     (sendMessage sampleState none sampleReq (ApiOutcome.authRequired "Auth required")
        sampleEnv).navigated = true) :=
  ⟨rfl, rfl, rfl,
   sendMessage_auth_required_persists_descriptor_no_error sampleState none sampleReq
     sampleEnv "Auth required" rfl (by decide) rfl rfl
     (by simp [sampleState, effectiveChatId, sampleReq, getEntry])⟩

/-- C6: if persisting the pending-send descriptor fails during the
AuthRequired path, the failure is surfaced to the user — the error field is
set (to the auth error message), not silently swallowed — no descriptor is
persisted and no navigation is triggered. -/
theorem sendMessage_storage_failure_surfaces_error
    (st : AiState) (storage0 : Option PendingAction) (req : SendRequest)
    (env : SendEnv) (authMsg : String)
    (hIdle : st.isLoadingAiResponse = false)
    (hNotDummy : req.providerId ≠ DUMMY_PROVIDER_ID)
    (hStoreFail : env.storageOk = false) :
    (sendMessage st storage0 req (ApiOutcome.authRequired authMsg) env).state.aiError
      = some authMsg ∧
    (sendMessage st storage0 req (ApiOutcome.authRequired authMsg) env).state.aiError
      ≠ none ∧
    (sendMessage st storage0 req (ApiOutcome.authRequired authMsg) env).storage
      = storage0 ∧
    (sendMessage st storage0 req (ApiOutcome.authRequired authMsg) env).navigated
      = false := by
  simp [sendMessage, hIdle, hNotDummy, hStoreFail]

/-- Witness for C6 at a concrete send with failing durable storage. -/
theorem sendMessage_storage_failure_surfaces_error_witness :
    sampleState.isLoadingAiResponse = false ∧
    ({ sampleEnv with storageOk := false } : SendEnv).storageOk = false ∧
    ((sendMessage sampleState none sampleReq (ApiOutcome.authRequired "Auth required")
        { sampleEnv with storageOk := false }).state.aiError = some "Auth required" ∧
     (sendMessage sampleState none sampleReq (ApiOutcome.authRequired "Auth required")
        { sampleEnv with storageOk := false }).state.aiError ≠ none ∧
     (sendMessage sampleState none sampleReq (ApiOutcome.authRequired "Auth required")
        { sampleEnv with storageOk := false }).storage = none ∧
     (sendMessage sampleState none sampleReq (ApiOutcome.authRequired "Auth required")
        { sampleEnv with storageOk := false }).navigated = false) :=
  ⟨rfl, rfl,
   sendMessage_storage_failure_surfaces_error sampleState none sampleReq
     { sampleEnv with storageOk := false } "Auth required" rfl (by decide) rfl⟩

/-- C2: a successful send targeting the existing active conversation (no
rewind marker set) increases that conversation's turn count by exactly 2 (the
confirmed user turn plus the returned assistant turn) and leaves the active
conversation id unchanged. -/
theorem sendMessage_existing_chat_success_adds_two_turns
    (st : AiState) (storage0 : Option PendingAction) (req : SendRequest)
    (env : SendEnv) (assistant : ChatMessage) (cid : String)
    (hIdle : st.isLoadingAiResponse = false)
    (hNotDummy : req.providerId ≠ DUMMY_PROVIDER_ID)
    (hReq : req.chatId = none)
    (hCur : st.currentChatId = some cid)
    (hNoRewind : st.rewindTargetMessageId = none) :
    turnCount (sendMessage st storage0 req (ApiOutcome.success assistant) env).state cid
      = turnCount st cid + 2 ∧
    (sendMessage st storage0 req (ApiOutcome.success assistant) env).state.currentChatId
      = some cid := by
  have heff : effectiveChatId st req = some cid := by
    simp [effectiveChatId, hReq, hCur]
  constructor
  · simp [sendMessage, hIdle, hNotDummy, heff, hNoRewind, turnCount, getEntry_setEntry_self]
  · simp [sendMessage, hIdle, hNotDummy, heff, hNoRewind]

/-- Witness for C2 at a concrete existing conversation with one prior turn. -/
theorem sendMessage_existing_chat_success_adds_two_turns_witness :
    (let stE : AiState :=
      { sampleState with
        currentChatId := some "old-1",
        messagesByChatId :=
          [("old-1", [{ id := "m0", chat_id := "old-1", role := Role.user,
                        content := "Old message" }])] }
     let assistant : ChatMessage :=
      { id := "m2", chat_id := "old-1", role := Role.assistant, content := "Hi there" }
     stE.isLoadingAiResponse = false ∧
     stE.currentChatId = some "old-1" ∧
     stE.rewindTargetMessageId = none ∧
     (turnCount (sendMessage stE none sampleReq (ApiOutcome.success assistant)
         sampleEnv).state "old-1" = turnCount stE "old-1" + 2 ∧
      (sendMessage stE none sampleReq (ApiOutcome.success assistant)
         sampleEnv).state.currentChatId = some "old-1")) :=
  ⟨rfl, rfl, rfl,
   sendMessage_existing_chat_success_adds_two_turns _ none sampleReq sampleEnv _ "old-1"
     rfl (by decide) rfl rfl rfl⟩

/-- C1: a successful send that creates a new conversation (no active or
explicit conversation id) is reconciled so that the provisional staging key
has no residual entry, the staged user turn is moved (with its provisional id
kept) under the durable conversation id returned by the server followed by
exactly the returned assistant turn, the durable id becomes the active
conversation id, and a new Conversation summary titled with the 50-character
prefix of the sent message is upserted into the owning context's cache. -/
theorem sendMessage_new_chat_success_reconciliation
    (st : AiState) (storage0 : Option PendingAction) (req : SendRequest)
    (env : SendEnv) (assistant : ChatMessage)
    (hIdle : st.isLoadingAiResponse = false)
    (hNotDummy : req.providerId ≠ DUMMY_PROVIDER_ID)
    (hReq : req.chatId = none)
    (hCur : st.currentChatId = none)
    (hFreshKey : getEntry env.stagingKey st.messagesByChatId = none)
    (hDurable : assistant.chat_id ≠ env.stagingKey) :
    getEntry env.stagingKey
      (sendMessage st storage0 req (ApiOutcome.success assistant) env).state.messagesByChatId
      = none ∧
    getEntry assistant.chat_id
      (sendMessage st storage0 req (ApiOutcome.success assistant) env).state.messagesByChatId
      = some [{ id := env.tempUserId, chat_id := assistant.chat_id, role := Role.user,
                content := req.message }, assistant] ∧
    (sendMessage st storage0 req (ApiOutcome.success assistant) env).state.currentChatId
      = some assistant.chat_id ∧
    getCache (sendMessage st storage0 req (ApiOutcome.success assistant) env).state
        st.newChatContext
      = some (upsertChat
          { id := assistant.chat_id, organization_id := st.newChatContext,
            title := req.message.take 50 }
          ((getCache st st.newChatContext).getD [])) := by
  have heff : effectiveChatId st req = none := by
    simp [effectiveChatId, hReq, hCur]
  have hne : env.stagingKey ≠ assistant.chat_id := Ne.symm hDurable
  refine ⟨?_, ?_, ?_, ?_⟩
  · simp [sendMessage, hIdle, hNotDummy, heff, hFreshKey, hne,
      getEntry_setEntry_ne, getEntry_eraseEntry_self]
  · simp [sendMessage, hIdle, hNotDummy, heff, hFreshKey, getEntry_setEntry_self]
  · simp [sendMessage, hIdle, hNotDummy, heff, hFreshKey]
  · simp [sendMessage, hIdle, hNotDummy, heff, hFreshKey, getCache_setCache_self]

/-- Witness for C1: the scenario-A send (`"Hello"` creating conversation
`c123` in the personal context). -/
theorem sendMessage_new_chat_success_reconciliation_witness :
    (let assistant : ChatMessage :=
      { id := "m2", chat_id := "c123", role := Role.assistant, content := "Hi there" }
     sampleState.isLoadingAiResponse = false ∧
     sampleState.currentChatId = none ∧
     getEntry sampleEnv.stagingKey sampleState.messagesByChatId = none ∧
     assistant.chat_id ≠ sampleEnv.stagingKey ∧
     (getEntry sampleEnv.stagingKey
        (sendMessage sampleState none sampleReq (ApiOutcome.success assistant)
          sampleEnv).state.messagesByChatId = none ∧
      getEntry assistant.chat_id
        (sendMessage sampleState none sampleReq (ApiOutcome.success assistant)
          sampleEnv).state.messagesByChatId
        = some [{ id := sampleEnv.tempUserId, chat_id := assistant.chat_id,
                  role := Role.user, content := sampleReq.message }, assistant] ∧
      (sendMessage sampleState none sampleReq (ApiOutcome.success assistant)
         sampleEnv).state.currentChatId = some assistant.chat_id ∧
      getCache (sendMessage sampleState none sampleReq (ApiOutcome.success assistant)
          sampleEnv).state sampleState.newChatContext
        = some (upsertChat
            { id := assistant.chat_id, organization_id := sampleState.newChatContext,
              title := sampleReq.message.take 50 }
            ((getCache sampleState sampleState.newChatContext).getD [])))) :=
  ⟨rfl, rfl, rfl, by decide,
   sendMessage_new_chat_success_reconciliation sampleState none sampleReq sampleEnv _
     rfl (by decide) rfl rfl rfl (by decide)⟩

/-- C3: a successful send performed while a rewind marker references turn
`target` in the active thread replaces the thread by the turns strictly
before `target` followed by exactly the new user turn and the returned
assistant turn, and clears the rewind marker. -/
theorem sendMessage_rewind_success_truncates_thread
    (st : AiState) (storage0 : Option PendingAction) (req : SendRequest)
    (env : SendEnv) (assistant : ChatMessage) (cid target : String)
    (pre post : List ChatMessage) (tTurn : ChatMessage)
    (hIdle : st.isLoadingAiResponse = false)
    (hNotDummy : req.providerId ≠ DUMMY_PROVIDER_ID)
    (hReq : req.chatId = none)
    (hCur : st.currentChatId = some cid)
    (hRewind : st.rewindTargetMessageId = some target)
    (hThread : (getEntry cid st.messagesByChatId).getD [] = pre ++ tTurn :: post)
    (hT : tTurn.id = target)
    (hPre : ∀ t ∈ pre, t.id ≠ target) :
    getEntry cid
      (sendMessage st storage0 req (ApiOutcome.success assistant) env).state.messagesByChatId
      = some (pre ++ [{ id := env.tempUserId, chat_id := cid, role := Role.user,
                        content := req.message }, assistant]) ∧
    (sendMessage st storage0 req (ApiOutcome.success assistant) env).state.rewindTargetMessageId
      = none := by
  have heff : effectiveChatId st req = some cid := by
    simp [effectiveChatId, hReq, hCur]
  have htake := takeWhile_prefix_of_marker pre tTurn post target hT hPre
  simp only [ne_eq, decide_not] at htake
  constructor
  · simp [sendMessage, hIdle, hNotDummy, heff, hRewind, hThread, htake,
      getEntry_setEntry_self]
  · simp [sendMessage, hIdle, hNotDummy, heff, hRewind]

/-- Witness for C3: the scenario-C rewind (`[m1, m1a, m2, m2a, m3]` with the
marker at `m2`). -/
theorem sendMessage_rewind_success_truncates_thread_witness :
    (let m1 : ChatMessage :=
      { id := "m1", chat_id := "chat-r", role := Role.user, content := "First" }
     let m1a : ChatMessage :=
      { id := "m1a", chat_id := "chat-r", role := Role.assistant, content := "First reply" }
     let m2 : ChatMessage :=
      { id := "m2", chat_id := "chat-r", role := Role.user, content := "Second" }
     let m2a : ChatMessage :=
      { id := "m2a", chat_id := "chat-r", role := Role.assistant, content := "Second reply" }
     let m3 : ChatMessage :=
      { id := "m3", chat_id := "chat-r", role := Role.user, content := "Third" }
     let stR : AiState :=
      { sampleState with
        currentChatId := some "chat-r",
        rewindTargetMessageId := some "m2",
        messagesByChatId := [("chat-r", [m1, m1a, m2, m2a, m3])] }
     let assistant : ChatMessage :=
      { id := "m2a-new", chat_id := "chat-r", role := Role.assistant,
        content := "Response to rewinded message" }
     stR.isLoadingAiResponse = false ∧
     stR.currentChatId = some "chat-r" ∧
     stR.rewindTargetMessageId = some "m2" ∧
     (getEntry "chat-r" stR.messagesByChatId).getD [] = [m1, m1a] ++ m2 :: [m2a, m3] ∧
     m2.id = "m2" ∧
     (getEntry "chat-r"
        (sendMessage stR none sampleReq (ApiOutcome.success assistant)
          sampleEnv).state.messagesByChatId
        = some ([m1, m1a] ++ [{ id := sampleEnv.tempUserId, chat_id := "chat-r",
                                role := Role.user, content := sampleReq.message },
                              assistant]) ∧
      (sendMessage stR none sampleReq (ApiOutcome.success assistant)
         sampleEnv).state.rewindTargetMessageId = none)) :=
  ⟨rfl, rfl, rfl, by decide, rfl,
   sendMessage_rewind_success_truncates_thread _ none sampleReq sampleEnv _ "chat-r" "m2"
     [{ id := "m1", chat_id := "chat-r", role := Role.user, content := "First" },
      { id := "m1a", chat_id := "chat-r", role := Role.assistant, content := "First reply" }]
     [{ id := "m2a", chat_id := "chat-r", role := Role.assistant, content := "Second reply" },
      { id := "m3", chat_id := "chat-r", role := Role.user, content := "Third" }]
     { id := "m2", chat_id := "chat-r", role := Role.user, content := "Second" }
     rfl (by decide) rfl rfl rfl (by decide) rfl (by decide)⟩

/-- C10: every send through the dummy provider — whether it targets an
existing conversation or starts a new one — never invokes the network
collaborator and appends, to the effective conversation, the user turn and
then an assistant turn whose content is `Echo from Dummy: ` followed by the
sent message; when no conversation is targeted the provisional staging key
itself becomes the active conversation id (an existing target stays active),
and for a new personal conversation a summary titled by the 50-character
message prefix is upserted into the personal context's cache. -/
theorem sendMessage_dummy_provider_echoes_without_api
    (st : AiState) (storage0 : Option PendingAction) (req : SendRequest)
    (env : SendEnv) (outcome : ApiOutcome)
    (hIdle : st.isLoadingAiResponse = false)
    (hDummy : req.providerId = DUMMY_PROVIDER_ID) :
    (sendMessage st storage0 req outcome env).apiCalled = false ∧
    getEntry ((effectiveChatId st req).getD env.stagingKey)
        (sendMessage st storage0 req outcome env).state.messagesByChatId
      = some (((getEntry ((effectiveChatId st req).getD env.stagingKey)
            st.messagesByChatId).getD [])
          ++ [{ id := env.tempUserId,
                chat_id := (effectiveChatId st req).getD env.stagingKey,
                role := Role.user, content := req.message },
              { id := "dummy-echo-" ++ env.dummyEchoId,
                chat_id := (effectiveChatId st req).getD env.stagingKey,
                role := Role.assistant,
                content := "Echo from Dummy: " ++ req.message }]) ∧
    (effectiveChatId st req = none →
        (sendMessage st storage0 req outcome env).state.currentChatId
          = some env.stagingKey) ∧
    (∀ c : String, effectiveChatId st req = some c →
        (sendMessage st storage0 req outcome env).state.currentChatId = some c) ∧
    (effectiveChatId st req = none → st.newChatContext = none →
        (sendMessage st storage0 req outcome env).state.chatsPersonal
          = some (upsertChat
              { id := env.stagingKey, organization_id := none,
                title := req.message.take 50 }
              (st.chatsPersonal.getD []))) := by
  refine ⟨?_, ?_, ?_, ?_, ?_⟩
  · simp [sendMessage, hIdle, hDummy]
  · rcases heff : effectiveChatId st req with _ | c
    · simp [sendMessage, hIdle, hDummy, heff, getEntry_setEntry_self]
    · simp [sendMessage, hIdle, hDummy, heff, getEntry_setEntry_self]
  · intro heff
    simp [sendMessage, hIdle, hDummy, heff]
  · intro c heff
    simp [sendMessage, hIdle, hDummy, heff]
  · intro heff hctx
    simp [sendMessage, hIdle, hDummy, heff, hctx, setCache, getCache]

/-- Witness for C10: a concrete dummy-provider send of `"Hello Dummy"` with
no active conversation, and one into the existing conversation
`existing-dummy-chat-123` that already holds one turn. -/
theorem sendMessage_dummy_provider_echoes_without_api_witness :
    ((sendMessage sampleState none
        { message := "Hello Dummy", providerId := DUMMY_PROVIDER_ID,
          promptId := none, chatId := none }
        (ApiOutcome.networkError "unused") sampleEnv).apiCalled = false ∧
     getEntry sampleEnv.stagingKey
        (sendMessage sampleState none
          { message := "Hello Dummy", providerId := DUMMY_PROVIDER_ID,
            promptId := none, chatId := none }
          (ApiOutcome.networkError "unused") sampleEnv).state.messagesByChatId
       = some [{ id := sampleEnv.tempUserId, chat_id := sampleEnv.stagingKey,
                 role := Role.user, content := "Hello Dummy" },
               { id := "dummy-echo-" ++ sampleEnv.dummyEchoId,
                 chat_id := sampleEnv.stagingKey, role := Role.assistant,
                 content := "Echo from Dummy: " ++ "Hello Dummy" }] ∧
     (sendMessage sampleState none
        { message := "Hello Dummy", providerId := DUMMY_PROVIDER_ID,
          promptId := none, chatId := none }
        (ApiOutcome.networkError "unused") sampleEnv).state.currentChatId
       = some sampleEnv.stagingKey ∧
     (sendMessage sampleState none
        { message := "Hello Dummy", providerId := DUMMY_PROVIDER_ID,
          promptId := none, chatId := none }
        (ApiOutcome.networkError "unused") sampleEnv).state.chatsPersonal
       = some (upsertChat
           { id := sampleEnv.stagingKey, organization_id := none,
             title := ("Hello Dummy" : String).take 50 }
           (sampleState.chatsPersonal.getD []))) ∧
    ((sendMessage
        { sampleState with
          currentChatId := some "existing-dummy-chat-123",
          messagesByChatId :=
            [("existing-dummy-chat-123",
              [{ id := "m0", chat_id := "existing-dummy-chat-123",
                 role := Role.user, content := "Old message" }])] }
        none
        { message := "Hello Dummy", providerId := DUMMY_PROVIDER_ID,
          promptId := none, chatId := some "existing-dummy-chat-123" }
        (ApiOutcome.networkError "unused") sampleEnv).apiCalled = false ∧
     getEntry "existing-dummy-chat-123"
        (sendMessage
          { sampleState with
            currentChatId := some "existing-dummy-chat-123",
            messagesByChatId :=
              [("existing-dummy-chat-123",
                [{ id := "m0", chat_id := "existing-dummy-chat-123",
                   role := Role.user, content := "Old message" }])] }
          none
          { message := "Hello Dummy", providerId := DUMMY_PROVIDER_ID,
            promptId := none, chatId := some "existing-dummy-chat-123" }
          (ApiOutcome.networkError "unused") sampleEnv).state.messagesByChatId
       = some [{ id := "m0", chat_id := "existing-dummy-chat-123",
                 role := Role.user, content := "Old message" },
               { id := sampleEnv.tempUserId, chat_id := "existing-dummy-chat-123",
                 role := Role.user, content := "Hello Dummy" },
               { id := "dummy-echo-" ++ sampleEnv.dummyEchoId,
                 chat_id := "existing-dummy-chat-123", role := Role.assistant,
                 content := "Echo from Dummy: " ++ "Hello Dummy" }] ∧
     (sendMessage
        { sampleState with
          currentChatId := some "existing-dummy-chat-123",
          messagesByChatId :=
            [("existing-dummy-chat-123",
              [{ id := "m0", chat_id := "existing-dummy-chat-123",
                 role := Role.user, content := "Old message" }])] }
        none
        { message := "Hello Dummy", providerId := DUMMY_PROVIDER_ID,
          promptId := none, chatId := some "existing-dummy-chat-123" }
        (ApiOutcome.networkError "unused") sampleEnv).state.currentChatId
       = some "existing-dummy-chat-123") :=
  ⟨⟨(sendMessage_dummy_provider_echoes_without_api sampleState none
       { message := "Hello Dummy", providerId := DUMMY_PROVIDER_ID,
         promptId := none, chatId := none }
       sampleEnv (ApiOutcome.networkError "unused") rfl rfl).1,
    (sendMessage_dummy_provider_echoes_without_api sampleState none
       { message := "Hello Dummy", providerId := DUMMY_PROVIDER_ID,
         promptId := none, chatId := none }
       sampleEnv (ApiOutcome.networkError "unused") rfl rfl).2.1,
    (sendMessage_dummy_provider_echoes_without_api sampleState none
       { message := "Hello Dummy", providerId := DUMMY_PROVIDER_ID,
         promptId := none, chatId := none }
       sampleEnv (ApiOutcome.networkError "unused") rfl rfl).2.2.1 rfl,
    (sendMessage_dummy_provider_echoes_without_api sampleState none
       { message := "Hello Dummy", providerId := DUMMY_PROVIDER_ID,
         promptId := none, chatId := none }
       sampleEnv (ApiOutcome.networkError "unused") rfl rfl).2.2.2.2 rfl rfl⟩,
   ⟨(sendMessage_dummy_provider_echoes_without_api
       { sampleState with
         currentChatId := some "existing-dummy-chat-123",
         messagesByChatId :=
           [("existing-dummy-chat-123",
             [{ id := "m0", chat_id := "existing-dummy-chat-123",
                role := Role.user, content := "Old message" }])] }
       none
       { message := "Hello Dummy", providerId := DUMMY_PROVIDER_ID,
         promptId := none, chatId := some "existing-dummy-chat-123" }
       sampleEnv (ApiOutcome.networkError "unused") rfl rfl).1,
    (sendMessage_dummy_provider_echoes_without_api
       { sampleState with
         currentChatId := some "existing-dummy-chat-123",
         messagesByChatId :=
           [("existing-dummy-chat-123",
             [{ id := "m0", chat_id := "existing-dummy-chat-123",
                role := Role.user, content := "Old message" }])] }
       none
       { message := "Hello Dummy", providerId := DUMMY_PROVIDER_ID,
         promptId := none, chatId := some "existing-dummy-chat-123" }
       sampleEnv (ApiOutcome.networkError "unused") rfl rfl).2.1,
    (sendMessage_dummy_provider_echoes_without_api
       { sampleState with
         currentChatId := some "existing-dummy-chat-123",
         messagesByChatId :=
           [("existing-dummy-chat-123",
             [{ id := "m0", chat_id := "existing-dummy-chat-123",
                role := Role.user, content := "Old message" }])] }
       none
       { message := "Hello Dummy", providerId := DUMMY_PROVIDER_ID,
         promptId := none, chatId := some "existing-dummy-chat-123" }
       sampleEnv (ApiOutcome.networkError "unused") rfl rfl).2.2.2.1
      "existing-dummy-chat-123" rfl⟩⟩

theorem effectiveChatId_mk_some (s : AiState) (m p : String) (pr : Option String)
    (c : String) :
    effectiveChatId s { message := m, providerId := p, promptId := pr, chatId := some c }
      = some c := by
  simp [effectiveChatId]

theorem effectiveChatId_mk_none (s : AiState) (m p : String) (pr : Option String) :
    effectiveChatId s { message := m, providerId := p, promptId := pr, chatId := none }
      = s.currentChatId := by
  simp [effectiveChatId]

/-- C8: `listConversations` returns the cached list immediately and issues no
fetch when a cache entry is present; when no entry is present and the context
is not already loading, it marks the context loading and issues exactly one
fetch — an immediately re-entrant call issues no second fetch; and any call
for a context already marked loading issues no fetch and leaves the state
unchanged. -/
theorem listConversations_cache_hit_and_single_fetch
    (st : AiState) (ctx : Option String) :
    (∀ l : List Chat, getCache st ctx = some l →
        listConversations st ctx = { state := st, fetched := false, cached := some l }) ∧
    (getCache st ctx = none → loadingFor st ctx = false →
        (listConversations st ctx).fetched = true ∧
        loadingFor (listConversations st ctx).state ctx = true ∧
        (listConversations (listConversations st ctx).state ctx).fetched = false) ∧
    (loadingFor st ctx = true →
        (listConversations st ctx).fetched = false ∧
        (listConversations st ctx).state = st) := by
  refine ⟨?_, ?_, ?_⟩
  · intro l hl
    simp [listConversations, hl]
  · intro hc hl
    refine ⟨?_, ?_, ?_⟩
    · simp [listConversations, hc, hl]
    · simp [listConversations, hc, hl, loadingFor_setLoading_self]
    · simp [listConversations, hc, hl, loadingFor_setLoading_self, getCache_setLoading]
  · intro hl
    cases hcache : getCache st ctx with
    | none => simp [listConversations, hcache, hl]
    | some l => simp [listConversations, hcache]

/-- Witness for C8: a cache hit at `sampleState`, a first fetch plus a
re-entrant second call at an unfetched personal context, and a no-fetch call
at a context already marked loading. -/
theorem listConversations_cache_hit_and_single_fetch_witness :
    listConversations sampleState none
      = { state := sampleState, fetched := false, cached := some [] } ∧
    ((listConversations { sampleState with chatsPersonal := none } none).fetched = true ∧
     loadingFor (listConversations { sampleState with chatsPersonal := none } none).state
       none = true ∧
     (listConversations
        (listConversations { sampleState with chatsPersonal := none } none).state
        none).fetched = false) ∧
    ((listConversations
        { sampleState with chatsPersonal := none, historyLoadingPersonal := true }
        none).fetched = false ∧
     (listConversations
        { sampleState with chatsPersonal := none, historyLoadingPersonal := true }
        none).state
       = { sampleState with chatsPersonal := none, historyLoadingPersonal := true }) :=
  ⟨(listConversations_cache_hit_and_single_fetch sampleState none).1 [] rfl,
   (listConversations_cache_hit_and_single_fetch
      { sampleState with chatsPersonal := none } none).2.1 rfl rfl,
   (listConversations_cache_hit_and_single_fetch
      { sampleState with chatsPersonal := none, historyLoadingPersonal := true }
      none).2.2 rfl⟩

/-- C9: replaying the persisted pending-send descriptor after recovery
re-issues the same request through the send path and produces the same final
store state as the original send succeeding without interruption, and when no
descriptor is persisted the replay is a no-op. -/
theorem replayPendingSend_refines_uninterrupted_send
    (st : AiState) (req : SendRequest) (env : SendEnv)
    (assistant : ChatMessage) (authMsg : String)
    (hIdle : st.isLoadingAiResponse = false)
    (hNav : env.navigateAvailable = true)
    (hStore : env.storageOk = true)
    (hFresh : ∀ t ∈ ((getEntry ((effectiveChatId st req).getD env.stagingKey)
        st.messagesByChatId).getD []), t.id ≠ env.tempUserId) :
    (replayPendingSendIfAny
        (sendMessage st none req (ApiOutcome.authRequired authMsg) env).state
        (sendMessage st none req (ApiOutcome.authRequired authMsg) env).storage
        (ApiOutcome.success assistant) env).state
      = (sendMessage st none req (ApiOutcome.success assistant) env).state ∧
    (∀ st2 : AiState,
        replayPendingSendIfAny st2 none (ApiOutcome.success assistant) env
          = { state := st2, apiCalled := false, storage := none, navigated := false }) := by
  constructor
  · by_cases hd : req.providerId = DUMMY_PROVIDER_ID
    · simp [sendMessage, replayPendingSendIfAny, hIdle, hd]
    · have hfilter : List.filter (fun t => t.id ≠ env.tempUserId)
          (((getEntry ((effectiveChatId st req).getD env.stagingKey)
              st.messagesByChatId).getD [])
            ++ [{ id := env.tempUserId,
                  chat_id := (effectiveChatId st req).getD env.stagingKey,
                  role := Role.user, content := req.message }]) =
          ((getEntry ((effectiveChatId st req).getD env.stagingKey)
              st.messagesByChatId).getD []) :=
        filter_out_temp _ _ _ rfl hFresh
      simp only [ne_eq, decide_not] at hfilter
      have hr1 : sendMessage st none req (ApiOutcome.authRequired authMsg) env =
          { state :=
              { st with
                messagesByChatId :=
                  setEntry ((effectiveChatId st req).getD env.stagingKey)
                    ((getEntry ((effectiveChatId st req).getD env.stagingKey)
                        st.messagesByChatId).getD [])
                    st.messagesByChatId,
                isLoadingAiResponse := false, aiError := none },
            apiCalled := true, storage := some (mkPendingAction st req),
            navigated := true } := by
        simp [sendMessage, hIdle, hd, hfilter, hNav, hStore]
      rw [hr1]
      simp only [replayPendingSendIfAny, mkPendingAction]
      rcases hrc : req.chatId with _ | c
      · rcases hcur : st.currentChatId with _ | c0
        · have heff : effectiveChatId st req = none := by
            simp [effectiveChatId, hrc, hcur]
          rcases hctx : st.newChatContext with _ | org
          · simp [sendMessage, hIdle, hd, heff, hcur, hctx, effectiveChatId_mk_none,
              getEntry_setEntry_self, eraseEntry_setEntry_self, setCache, getCache]
          · simp [sendMessage, hIdle, hd, heff, hcur, hctx, effectiveChatId_mk_none,
              getEntry_setEntry_self, eraseEntry_setEntry_self, setCache, getCache]
        · have heff : effectiveChatId st req = some c0 := by
            simp [effectiveChatId, hrc, hcur]
          rcases hrw : st.rewindTargetMessageId with _ | target
          · simp [sendMessage, hIdle, hd, heff, hcur, hrw, effectiveChatId_mk_none,
              effectiveChatId_mk_some, getEntry_setEntry_self, setEntry_setEntry_self]
          · simp [sendMessage, hIdle, hd, heff, hcur, hrw, effectiveChatId_mk_none,
              effectiveChatId_mk_some, getEntry_setEntry_self, setEntry_setEntry_self]
      · have heff : effectiveChatId st req = some c := by
          simp [effectiveChatId, hrc]
        rcases hrw : st.rewindTargetMessageId with _ | target
        · simp [sendMessage, hIdle, hd, heff, hrw, effectiveChatId_mk_some,
            getEntry_setEntry_self, setEntry_setEntry_self]
        · simp [sendMessage, hIdle, hd, heff, hrw, effectiveChatId_mk_some,
            getEntry_setEntry_self, setEntry_setEntry_self]
  · intro st2
    simp [replayPendingSendIfAny]

/-- Witness for C9: the scenario-D interrupted send of `"Hello"` replayed
after recovery, and the no-op replay with nothing persisted. -/
theorem replayPendingSend_refines_uninterrupted_send_witness :
    sampleState.isLoadingAiResponse = false ∧
    sampleEnv.navigateAvailable = true ∧
    sampleEnv.storageOk = true ∧
    (replayPendingSendIfAny
        (sendMessage sampleState none sampleReq (ApiOutcome.authRequired "Auth required")
          sampleEnv).state
        (sendMessage sampleState none sampleReq (ApiOutcome.authRequired "Auth required")
          sampleEnv).storage
        (ApiOutcome.success
          { id := "m2", chat_id := "c123", role := Role.assistant, content := "Hi there" })
        sampleEnv).state
      = (sendMessage sampleState none sampleReq
          (ApiOutcome.success
            { id := "m2", chat_id := "c123", role := Role.assistant, content := "Hi there" })
          sampleEnv).state ∧
    replayPendingSendIfAny sampleState none
        (ApiOutcome.success
          { id := "m2", chat_id := "c123", role := Role.assistant, content := "Hi there" })
        sampleEnv
      = { state := sampleState, apiCalled := false, storage := none, navigated := false } :=
  ⟨rfl, rfl, rfl,
   (replayPendingSend_refines_uninterrupted_send sampleState sampleReq sampleEnv
      { id := "m2", chat_id := "c123", role := Role.assistant, content := "Hi there" }
      "Auth required" rfl rfl rfl (by decide)).1,
   (replayPendingSend_refines_uninterrupted_send sampleState sampleReq sampleEnv
      { id := "m2", chat_id := "c123", role := Role.assistant, content := "Hi there" }
      "Auth required" rfl rfl rfl (by decide)).2 sampleState⟩
